import Mathlib

/-!
Verification development for the batch literature-analysis pipeline
(`step3_batch_analyze/analyze.py`, `step3_batch_analyze/summarize.py`,
`step4_outline/deep_analysis.py`).

The Python scripts operate on JSON values (dict / list / str / int / bool /
null).  We embed JSON values shallowly; numbers are modelled as integers
(no field in any claim depends on float semantics).  Python exceptions that
the scripts can raise or catch are modelled explicitly with `PyErr` and
`Except`.  External collaborators (the PDF text extractor, the HTTP
transport, the standard-library JSON parser, the wall clock) are modelled
as oracle parameters, exactly at the interface the scripts use them.
-/

/-- A JSON value as produced by Python's `json.load`.  Numbers are modelled
as integers; object fields keep insertion order, like Python dicts. -/
inductive Json where
  | null
  | bool (b : Bool)
  | int (n : Int)
  | str (s : String)
  | arr (elems : List Json)
  | obj (fields : List (String × Json))
  deriving Repr

/-- The Python exception classes that the scripts raise or catch. -/
inductive PyErr where
  | valueError
  | typeError
  | indexError
  | keyError
  | attributeError
  deriving DecidableEq, Repr

mutual

/-- Boolean equality on JSON values (structural). -/
def Json.beq : Json → Json → Bool
  | .null, .null => true
  | .bool a, .bool b => a == b
  | .int a, .int b => a == b
  | .str a, .str b => a == b
  | .arr a, .arr b => Json.beqList a b
  | .obj a, .obj b => Json.beqFields a b
  | _, _ => false

/-- Boolean equality on JSON arrays. -/
def Json.beqList : List Json → List Json → Bool
  | [], [] => true
  | x :: xs, y :: ys => Json.beq x y && Json.beqList xs ys
  | _, _ => false

/-- Boolean equality on JSON object field lists. -/
def Json.beqFields : List (String × Json) → List (String × Json) → Bool
  | [], [] => true
  | (k, v) :: xs, (k', v') :: ys => k == k' && Json.beq v v' && Json.beqFields xs ys
  | _, _ => false

end

mutual

theorem Json.beq_iff : ∀ a b : Json, Json.beq a b = true ↔ a = b
  | .null, b => by cases b <;> simp [Json.beq]
  | .bool a, b => by cases b <;> simp [Json.beq]
  | .int a, b => by cases b <;> simp [Json.beq]
  | .str a, b => by cases b <;> simp [Json.beq]
  | .arr a, b => by
      cases b <;> simp [Json.beq]
      exact Json.beqList_iff a _
  | .obj a, b => by
      cases b <;> simp [Json.beq]
      exact Json.beqFields_iff a _

theorem Json.beqList_iff : ∀ a b : List Json, Json.beqList a b = true ↔ a = b
  | [], b => by cases b <;> simp [Json.beqList]
  | x :: xs, b => by
      cases b with
      | nil => simp [Json.beqList]
      | cons y ys =>
          simp only [Json.beqList, Bool.and_eq_true, List.cons.injEq]
          rw [Json.beq_iff, Json.beqList_iff]

theorem Json.beqFields_iff :
    ∀ a b : List (String × Json), Json.beqFields a b = true ↔ a = b
  | [], b => by cases b <;> simp [Json.beqFields]
  | (k, v) :: xs, b => by
      cases b with
      | nil => simp [Json.beqFields]
      | cons y ys =>
          obtain ⟨k', v'⟩ := y
          simp only [Json.beqFields, Bool.and_eq_true, List.cons.injEq, Prod.mk.injEq]
          rw [Json.beq_iff, Json.beqFields_iff, beq_iff_eq, and_assoc]

end

instance : DecidableEq Json := fun a b => decidable_of_iff _ (Json.beq_iff a b)

example : (Json.obj [("a", Json.int 1)]) = (Json.obj [("a", Json.int 1)]) := by decide
example : (Json.arr [Json.str "x"]) ≠ Json.null := by decide

/-! ## Python primitives used by the scripts -/

/-- Python `str.isspace()` on one character: the whitespace set CPython's
`str.strip()` removes — the ASCII control whitespace 0x09-0x0D, the
separators 0x1C-0x1F, the space, NEL (0x85), NBSP (0xA0), the Ogham space
mark, the en-quad through hair-space range, the line and paragraph
separators, the narrow no-break space, the medium mathematical space and the
ideographic space. -/
def pyIsSpace (c : Char) : Bool :=
  let n := c.toNat
  (0x09 ≤ n && n ≤ 0x0d) || n == 0x20 || (0x1c ≤ n && n ≤ 0x1f) ||
  n == 0x85 || n == 0xa0 || n == 0x1680 ||
  (0x2000 ≤ n && n ≤ 0x200a) || n == 0x2028 || n == 0x2029 ||
  n == 0x202f || n == 0x205f || n == 0x3000

/-- Python `str.strip()`: remove whitespace from both ends. -/
def pyStrip (s : String) : String :=
  String.mk (((s.data.dropWhile pyIsSpace).reverse.dropWhile pyIsSpace).reverse)

/-- Python `str.lower()` (the labels involved are ASCII). -/
def pyLower (s : String) : String := String.mk (s.data.map Char.toLower)

/-- Consecutive-sublist test over characters. -/
def containsSub (needle hay : List Char) : Bool :=
  (List.range (hay.length + 1)).any (fun i => (hay.drop i).take needle.length == needle)

/-- Python `needle in hay` on strings (substring containment). -/
def pyIn (needle hay : String) : Bool := containsSub needle.data hay.data

/-- Digit-string value. -/
def digitsToNat (ds : List Char) : Nat :=
  ds.foldl (fun acc c => acc * 10 + (c.toNat - '0'.toNat)) 0

/-- Python `int(s)` on a string: optional sign and decimal digits after stripping
whitespace; raises ValueError otherwise.  (Underscore digit grouping, an exotic
Python literal feature never exercised by this repository's data, is not modelled.) -/
def pyStrToInt (s : String) : Except PyErr Int :=
  match (pyStrip s).data with
  | '-' :: ds =>
      if !ds.isEmpty && ds.all Char.isDigit then .ok (-(digitsToNat ds : Int))
      else .error .valueError
  | '+' :: ds =>
      if !ds.isEmpty && ds.all Char.isDigit then .ok (digitsToNat ds)
      else .error .valueError
  | ds =>
      if !ds.isEmpty && ds.all Char.isDigit then .ok (digitsToNat ds)
      else .error .valueError

/-- Python `int(v)` on a JSON value: ints pass through, booleans become 0/1,
strings are parsed (ValueError on garbage), anything else raises TypeError. -/
def py_int : Json → Except PyErr Int
  | .int n => .ok n
  | .bool b => .ok (if b then 1 else 0)
  | .str s => pyStrToInt s
  | _ => .error .typeError

/-- A Python dict holding JSON data (insertion-ordered, as in CPython). -/
abbrev Record := List (String × Json)

/-- Python `d.get(k)`: the stored value, or None when the key is absent. -/
def getPy (r : Record) (k : String) : Json :=
  match r.lookup k with
  | some v => v
  | none => Json.null

/-- Python `d.get(k, default)`. -/
def getD (r : Record) (k : String) (default : Json) : Json :=
  match r.lookup k with
  | some v => v
  | none => default

/-- Python `k in d`. -/
def hasKey (r : Record) (k : String) : Bool := r.any (fun p => p.1 == k)

/-- Python `d[k] = v`: replace if the key is present, else append (insertion order). -/
def setField (r : Record) (k : String) (v : Json) : Record :=
  if hasKey r k then r.map (fun p => if p.1 == k then (k, v) else p) else r ++ [(k, v)]

/-! ## Taxonomy normalization (summarize.py 17-24 / deep_analysis.py 25-29) -/

/-- `normalize_category`: identical in summarize.py (lines 17-24) and
deep_analysis.py (lines 25-29).  `not cat` sends None, non-strings and the empty
string to "Unknown"; otherwise the first character of `cat.strip()` is
uppercased and kept if it lies in "ABCDEF".  `cat.strip()[0]` raises IndexError
when `cat` is a non-empty string consisting solely of whitespace. -/
def normalize_category (cat : Json) : Except PyErr String :=
  match cat with
  | .str s =>
      if s = "" then .ok "Unknown"
      else
        match (pyStrip s).data with
        | [] => .error .indexError
        | c :: _ =>
            let u := c.toUpper
            if u ∈ ['A', 'B', 'C', 'D', 'E', 'F'] then .ok (String.mk [u])
            else .ok "Unknown"
  | _ => .ok "Unknown"

/-- `safe_int` from deep_analysis.py lines 32-36: `int(v)` with every exception
mapped to the default, which is 0 at every call site in the repository. -/
def safe_int (v : Json) : Int :=
  match py_int v with
  | .ok n => n
  | .error _ => 0

instance {ε α : Type} [DecidableEq ε] [DecidableEq α] : DecidableEq (Except ε α) :=
  fun a b =>
    match a, b with
    | .ok x, .ok y => decidable_of_iff (x = y) (by simp)
    | .error x, .error y => decidable_of_iff (x = y) (by simp)
    | .ok _, .error _ => .isFalse (by simp)
    | .error _, .ok _ => .isFalse (by simp)

example : normalize_category (Json.str "E. Core literature") = .ok "E" := by decide
example : normalize_category (Json.str " ") = .error .indexError := by decide
example : normalize_category (Json.str "\x0c") = .error .indexError := by decide
example : normalize_category (Json.str "\x0b") = .error .indexError := by decide
example : normalize_category (Json.str "\xa0") = .error .indexError := by decide
example : normalize_category (Json.str "") = .ok "Unknown" := by decide
example : normalize_category Json.null = .ok "Unknown" := by decide
example : normalize_category (Json.int 3) = .ok "Unknown" := by decide
example : safe_int (Json.str "four") = 0 := by decide
example : safe_int Json.null = 0 := by decide
example : safe_int (Json.str " 4 ") = 4 := by decide
example : py_int (Json.str "-12") = .ok (-12) := by decide
example : pyIn "transfer learn" "transfer learning" = true := by decide

/-! ## Technique canonicalization (deep_analysis.py 95-163) -/

/-- `normalize_technique` from deep_analysis.py lines 95-163: an ordered,
first-match-wins list of (keyword set, canonical label) rules, evaluated by
substring match against the lowercased, stripped input; unmatched labels pass
through stripped but otherwise verbatim. -/
def normalize_technique (s0 : String) : String :=
  let s := pyStrip s0
  let sl := pyLower s
  if ["multi-fidelity", "multifidelity", "multi fidelity", "dual fidelity",
      "bi-fidelity"].any (fun kw => pyIn kw sl) then
    "Multi-Fidelity Data Fusion"
  else if ["transfer learn", "fine-tun", "fine tun"].any (fun kw => pyIn kw sl) then
    "Transfer Learning"
  else if ["physics-inform", "physics inform", "pinn", "physics-guided",
      "physics constrain"].any (fun kw => pyIn kw sl) then
    "Physics-Informed Methods / PINN"
  else if ["surrogate", "emulat", "metamodel"].any (fun kw => pyIn kw sl) then
    "Surrogate Modeling"
  else if ["data augment"].any (fun kw => pyIn kw sl) then
    "Data Augmentation"
  else if ["virtual sample", "synthetic sample", "synthetic data"].any
      (fun kw => pyIn kw sl) then
    "Virtual Sample Generation"
  else if ["active learn", "adaptive sampling", "adaptive sample"].any
      (fun kw => pyIn kw sl) then
    "Active Learning / Adaptive Sampling"
  else if ["few-shot", "few shot", "small sample", "small data", "low-data",
      "low data"].any (fun kw => pyIn kw sl) then
    "Few-Shot / Small-Data Learning"
  else if ["sparse", "compress", "compressive"].any (fun kw => pyIn kw sl) then
    "Sparse Methods / Compressed Sensing"
  else if ["gan", "generative adversarial", "variational autoencod", "diffusion model",
      "vae"].any (fun kw => pyIn kw sl) then
    "Generative Models (GAN/VAE/Diffusion)"
  else if ["multi-task", "multitask"].any (fun kw => pyIn kw sl) then
    "Multi-Task Learning"
  else if ["uncertainty", "bayesian", "probabilistic"].any (fun kw => pyIn kw sl) then
    "Uncertainty Quantification / Bayesian Methods"
  else s

/-- The canonical labels: every string that some rule of `normalize_technique`
returns, in rule order. -/
def canonicalTechniqueLabels : List String :=
  ["Multi-Fidelity Data Fusion",
   "Transfer Learning",
   "Physics-Informed Methods / PINN",
   "Surrogate Modeling",
   "Data Augmentation",
   "Virtual Sample Generation",
   "Active Learning / Adaptive Sampling",
   "Few-Shot / Small-Data Learning",
   "Sparse Methods / Compressed Sensing",
   "Generative Models (GAN/VAE/Diffusion)",
   "Multi-Task Learning",
   "Uncertainty Quantification / Bayesian Methods"]

example : normalize_technique "fine-tuning a pretrained model" = "Transfer Learning" := by
  decide
example : normalize_technique "Generative Models (GAN/VAE/Diffusion)" =
    "Generative Models (GAN/VAE/Diffusion)" := by decide

/-- C7: technique canonicalization is idempotent — every canonical label
(every string returned by some rule of `normalize_technique`) is mapped to
itself; no canonical label matches an earlier, different rule of the ordered
first-match-wins rule list. -/
theorem C7_technique_canonicalization_idempotent :
    ∀ l ∈ canonicalTechniqueLabels, normalize_technique l = l := by
  decide

theorem C7_technique_canonicalization_idempotent_witness :
    "Transfer Learning" ∈ canonicalTechniqueLabels ∧
      normalize_technique "Transfer Learning" = "Transfer Learning" :=
  ⟨by decide,
   C7_technique_canonicalization_idempotent "Transfer Learning" (by decide)⟩

/-! ## Aggregation load (summarize.py 27-51, deep_analysis.py 39-58) -/

/-- Rendering of an exception as `str(e)` for the error list of
summarize.py line 50 (the exact Python message text is immaterial to the
claims; what matters is which exception is associated with which folder). -/
def PyErr.message : PyErr → String
  | .valueError => "ValueError"
  | .typeError => "TypeError"
  | .indexError => "IndexError"
  | .keyError => "KeyError"
  | .attributeError => "AttributeError"

/-- Python `[normalize_category(c) for c in v]`: iterating a list yields its
elements, a string yields its characters, a dict yields its keys; any other
value is not iterable and raises TypeError. -/
def normalize_category_list (v : Json) : Except PyErr (List String) :=
  match v with
  | .arr xs => xs.mapM normalize_category
  | .str s => (s.data.map (fun c => Json.str (String.mk [c]))).mapM normalize_category
  | .obj fs => (fs.map (fun p => Json.str p.1)).mapM normalize_category
  | _ => .error .typeError

/-- Relevance-score coercion of summarize.py load_all, lines 42-47: a value of
None (key absent, or stored null) is left untouched; otherwise `int(rs)` is
stored, with ValueError and TypeError caught and replaced by 0. -/
def coerce_relevance (r : Record) : Except PyErr Record :=
  let rs := getPy r "relevance_score"
  if rs = Json.null then .ok r
  else
    match py_int rs with
    | .ok n => .ok (setField r "relevance_score" (Json.int n))
    | .error .valueError => .ok (setField r "relevance_score" (Json.int 0))
    | .error .typeError => .ok (setField r "relevance_score" (Json.int 0))
    | .error e => .error e

/-- The per-file body of summarize.py load_all (lines 34-48): attach
`_folder`, normalize the primary category, normalize the secondary categories
when that key is present, coerce the relevance score.  Any exception escaping
this body is caught by the surrounding `except Exception` (line 49); a
non-dict top-level JSON value makes the `data["_folder"] = folder` assignment
raise TypeError. -/
def processRecord (folder : String) (j : Json) : Except PyErr Record :=
  match j with
  | .obj fields => do
      let f1 := setField fields "_folder" (Json.str folder)
      let pc ← normalize_category (getPy f1 "primary_category")
      let f2 := setField f1 "primary_category" (Json.str pc)
      let f3 ←
        if hasKey f2 "secondary_categories" then do
          let ys ← normalize_category_list (getPy f2 "secondary_categories")
          pure (setField f2 "secondary_categories" (Json.arr (ys.map Json.str)))
        else pure f2
      coerce_relevance f3
  | _ => .error .typeError

/-- The content of one persisted analysis.json file: either the JSON value
that `json.load` produces, or a parse failure carrying `str(e)`. -/
inductive FileContent where
  | valid (j : Json)
  | invalid (msg : String)
  deriving DecidableEq, Repr

/-- The persisted result store: one entry per storage folder whose
analysis.json exists, in the sorted folder order the loaders iterate in.
Folders without the file never reach the loop body (the `fp.exists()` guard). -/
abbrev Store := List (String × FileContent)

/-- `load_all` from summarize.py lines 27-51: every file that parses and whose
per-record processing succeeds is appended to `results`; a file whose load or
processing raises is appended to `errors` as `(folder, str(e))`. -/
def load_all : Store → List Record × List (String × String)
  | [] => ([], [])
  | (folder, fc) :: rest =>
      let acc := load_all rest
      match fc with
      | .invalid msg => (acc.1, (folder, msg) :: acc.2)
      | .valid j =>
          match processRecord folder j with
          | .ok r => (r :: acc.1, acc.2)
          | .error e => (acc.1, (folder, e.message) :: acc.2)

namespace DeepAnalysis

/-- The per-file body of deep_analysis.py load_all (lines 44-55): attach
`_folder`, normalize the primary category, coerce relevance score and year
through `safe_int`, normalize secondary categories when present. -/
def processRecord (folder : String) (j : Json) : Except PyErr Record :=
  match j with
  | .obj fields => do
      let f1 := setField fields "_folder" (Json.str folder)
      let pc ← normalize_category (getPy f1 "primary_category")
      let f2 := setField f1 "primary_category" (Json.str pc)
      let f3 := setField f2 "relevance_score" (Json.int (safe_int (getPy f2 "relevance_score")))
      let f4 := setField f3 "year" (Json.int (safe_int (getPy f3 "year")))
      if hasKey f4 "secondary_categories" then do
        let ys ← normalize_category_list (getPy f4 "secondary_categories")
        pure (setField f4 "secondary_categories" (Json.arr (ys.map Json.str)))
      else pure f4
  | _ => .error .typeError

/-- `load_all` from deep_analysis.py lines 39-58: like the summarize loader,
but the `except Exception: pass` on lines 56-57 silently discards a file whose
load or processing raises — no error list is kept. -/
def load_all : Store → List Record
  | [] => []
  | (folder, fc) :: rest =>
      let acc := load_all rest
      match fc with
      | .invalid _ => acc
      | .valid j =>
          match processRecord folder j with
          | .ok r => r :: acc
          | .error _ => acc

end DeepAnalysis

/-! ## C3: category normalization totality -/

/-- C3 counterexample: `normalize_category` is not total on strings — on the
whitespace-only input `" "` the expression `cat.strip()[0]` raises IndexError
instead of returning a value of the closed set. -/
theorem C3_counterexample :
    normalize_category (Json.str " ") = .error .indexError := by decide

/-- C3 amended: for every input except a non-empty string that strips to
empty, `normalize_category` returns a value of {A,B,C,D,E,F,Unknown} without
raising; in particular "E. Core literature" yields "E".  (A non-empty
all-whitespace string raises IndexError — see the counterexample.) -/
theorem C3_normalize_category_closure :
    (∀ j : Json, (∀ s, j = Json.str s → s = "" ∨ pyStrip s ≠ "") →
      ∃ c, normalize_category j = .ok c ∧
        c ∈ ["A", "B", "C", "D", "E", "F", "Unknown"]) ∧
    normalize_category (Json.str "E. Core literature") = .ok "E" := by
  refine ⟨?_, by decide⟩
  intro j h
  match j with
  | .null => exact ⟨"Unknown", rfl, by decide⟩
  | .bool b => exact ⟨"Unknown", rfl, by decide⟩
  | .int n => exact ⟨"Unknown", rfl, by decide⟩
  | .arr xs => exact ⟨"Unknown", rfl, by decide⟩
  | .obj fs => exact ⟨"Unknown", rfl, by decide⟩
  | .str s =>
      by_cases hs : s = ""
      · subst hs; exact ⟨"Unknown", rfl, by decide⟩
      · have hne : pyStrip s ≠ "" := (h s rfl).resolve_left hs
        rcases hd : (pyStrip s).data with _ | ⟨c, cs⟩
        · exact absurd (String.ext hd) hne
        · by_cases hu : c.toUpper ∈ ['A', 'B', 'C', 'D', 'E', 'F']
          · refine ⟨String.mk [c.toUpper], by simp [normalize_category, hs, hd, hu], ?_⟩
            generalize c.toUpper = u at hu
            fin_cases hu <;> decide
          · exact ⟨"Unknown", by simp [normalize_category, hs, hd, hu], by decide⟩

theorem C3_normalize_category_closure_witness :
    (∃ c, normalize_category (Json.str "b. background survey") = .ok c ∧
      c ∈ ["A", "B", "C", "D", "E", "F", "Unknown"]) ∧
    normalize_category (Json.str "E. Core literature") = .ok "E" :=
  ⟨C3_normalize_category_closure.1 (Json.str "b. background survey")
      (fun s hs => by injection hs with h; subst h; right; decide),
   C3_normalize_category_closure.2⟩

/-! ## C4: relevance-score coercion -/

/-- `pyStrToInt` only ever raises ValueError. -/
theorem pyStrToInt_error (s : String) (e : PyErr) (h : pyStrToInt s = .error e) :
    e = .valueError := by
  unfold pyStrToInt at h
  split at h <;> split at h <;> simp_all

/-- `py_int` raises only ValueError or TypeError — exactly the classes the
summarize loader catches. -/
theorem py_int_error_kinds (v : Json) (e : PyErr) (h : py_int v = .error e) :
    e = .valueError ∨ e = .typeError := by
  cases v with
  | int n => simp [py_int] at h
  | bool b => simp [py_int] at h
  | str s => exact Or.inl (pyStrToInt_error s e h)
  | null => simp only [py_int, Except.error.injEq] at h; exact Or.inr h.symm
  | arr xs => simp only [py_int, Except.error.injEq] at h; exact Or.inr h.symm
  | obj fs => simp only [py_int, Except.error.injEq] at h; exact Or.inr h.symm

/-- C4 counterexample: a persisted record whose relevance score is null is
loaded by the summarize aggregation loader with the score still null — the
missing/null case is not coerced to the integer 0 there (the `if rs is not
None` guard skips it). -/
theorem C4_counterexample :
    (load_all [("f1", .valid (Json.obj [("relevance_score", Json.null)]))]).1.map
        (fun r => getPy r "relevance_score") = [Json.null] := by decide

/-- C4 amended: relevance-score coercion never raises in either loader; a
non-numeric score such as "four" coerces to 0 in both; a missing/null score
coerces to 0 in the deep-analysis loader (`safe_int`), but the summarize
loader leaves it unchanged (null), coercing only non-null values. -/
theorem C4_score_coercion :
    (∀ r : Record, ∃ r', coerce_relevance r = .ok r') ∧
    (∀ r : Record, getPy r "relevance_score" = Json.str "four" →
      coerce_relevance r = .ok (setField r "relevance_score" (Json.int 0))) ∧
    (∀ r : Record, getPy r "relevance_score" = Json.null → coerce_relevance r = .ok r) ∧
    safe_int (Json.str "four") = 0 ∧ safe_int Json.null = 0 := by
  refine ⟨?_, ?_, ?_, by decide, by decide⟩
  · intro r
    by_cases h : getPy r "relevance_score" = Json.null
    · exact ⟨r, by simp [coerce_relevance, h]⟩
    · cases hp : py_int (getPy r "relevance_score") with
      | ok n =>
          exact ⟨setField r "relevance_score" (Json.int n),
            by simp [coerce_relevance, h, hp]⟩
      | error e =>
          rcases py_int_error_kinds _ _ hp with he | he <;> subst he <;>
            exact ⟨setField r "relevance_score" (Json.int 0),
              by simp [coerce_relevance, h, hp]⟩
  · intro r h
    have hp : py_int (Json.str "four") = .error .valueError := by decide
    simp [coerce_relevance, h, hp]
  · intro r h
    simp [coerce_relevance, h]

/-- The summarize loader processes a store pointwise: splitting the store
splits both the result list and the error list. -/
theorem load_all_append (xs ys : Store) :
    load_all (xs ++ ys) =
      ((load_all xs).1 ++ (load_all ys).1, (load_all xs).2 ++ (load_all ys).2) := by
  induction xs with
  | nil => simp [load_all]
  | cons hd tl ih =>
      obtain ⟨folder, fc⟩ := hd
      cases fc with
      | invalid msg => simp [load_all, ih]
      | valid j =>
          cases hpr : processRecord folder j with
          | ok r => simp [load_all, hpr, ih]
          | error e => simp [load_all, hpr, ih]

/-- The deep-analysis loader processes a store pointwise. -/
theorem DeepAnalysis.deep_load_all_append (xs ys : Store) :
    DeepAnalysis.load_all (xs ++ ys) =
      DeepAnalysis.load_all xs ++ DeepAnalysis.load_all ys := by
  induction xs with
  | nil => simp [DeepAnalysis.load_all]
  | cons hd tl ih =>
      obtain ⟨folder, fc⟩ := hd
      cases fc with
      | invalid msg => simp [DeepAnalysis.load_all, ih]
      | valid j =>
          cases hpr : DeepAnalysis.processRecord folder j with
          | ok r => simp [DeepAnalysis.load_all, hpr, ih]
          | error e => simp [DeepAnalysis.load_all, hpr, ih]

/-! ## C9: parse-failure handling during aggregation load -/

/-- C9 counterexample: the outline loader (deep_analysis.py load_all, whose
`except Exception: pass` discards failures) keeps no trace of a file that
fails to parse: its entire output on a store containing the failing item
equals its output without that item, so the offending item is not listed
separately anywhere, contrary to the claim. -/
theorem C9_counterexample :
    DeepAnalysis.load_all
        [("badfolder", .invalid "Expecting value: line 1 column 1 (char 0)"),
         ("goodfolder", .valid (Json.obj [("title", Json.str "T")]))] =
      DeepAnalysis.load_all
        [("goodfolder", .valid (Json.obj [("title", Json.str "T")]))] := by
  decide

/-- C9 amended: a persisted result file that fails to parse is excluded from
the loaded statistics set and does not abort the run — every other record is
still loaded — in both aggregation loaders; the summarize loader additionally
lists the offending item separately as (folder, error reason), while the
deep-analysis loader silently discards it. -/
theorem C9_parse_error_isolation :
    (∀ (pre post : Store) (folder msg : String),
      load_all (pre ++ (folder, .invalid msg) :: post) =
        ((load_all pre).1 ++ (load_all post).1,
         (load_all pre).2 ++ (folder, msg) :: (load_all post).2)) ∧
    (∀ (pre post : Store) (folder msg : String),
      DeepAnalysis.load_all (pre ++ (folder, .invalid msg) :: post) =
        DeepAnalysis.load_all pre ++ DeepAnalysis.load_all post) := by
  constructor
  · intro pre post folder msg
    rw [load_all_append]
    simp [load_all]
  · intro pre post folder msg
    rw [DeepAnalysis.deep_load_all_append]
    simp [DeepAnalysis.load_all]

/-! ## C1: ErrorRecords and the statistics record set -/

/-- The ErrorRecord shape persisted by analyze.py process_one lines 242-249. -/
def errorRecordJson (msg fn : String) (n : Int) : Json :=
  Json.obj [("error", Json.str msg), ("filename", Json.str fn),
            ("extracted_chars", Json.int n)]

/-- C1 counterexample: a persisted ErrorRecord (the exact JSON shape analyze.py
writes for a too-short extraction) parses fine, so the summarize aggregation
loader puts it into the statistics result set — with primary_category
normalized to "Unknown" — and the separately-tracked failure list stays
empty. -/
theorem C1_counterexample :
    load_all [("f1", .valid (errorRecordJson
        "Extracted text too short — likely a scanned PDF" "paper.pdf" 50))] =
      ([[("error", Json.str "Extracted text too short — likely a scanned PDF"),
         ("filename", Json.str "paper.pdf"),
         ("extracted_chars", Json.int 50),
         ("_folder", Json.str "f1"),
         ("primary_category", Json.str "Unknown")]], []) := by
  decide

/-- C1 amended: the aggregation loader excludes (and tracks separately)
exactly the files whose JSON parse or per-record processing raises; a
persisted ErrorRecord parses successfully and is therefore included in the
loaded result set used for statistics — appearing with primary_category
"Unknown" — and is not tracked as a failure. -/
theorem C1_error_records_included :
    ∀ (pre post : Store) (folder msg fn : String) (n : Int),
      load_all (pre ++ (folder, .valid (errorRecordJson msg fn n)) :: post) =
        ((load_all pre).1 ++
           ([("error", Json.str msg), ("filename", Json.str fn),
             ("extracted_chars", Json.int n), ("_folder", Json.str folder),
             ("primary_category", Json.str "Unknown")] : Record) ::
             (load_all post).1,
         (load_all pre).2 ++ (load_all post).2) := by
  intro pre post folder msg fn n
  have hpr : processRecord folder (errorRecordJson msg fn n) =
      .ok [("error", Json.str msg), ("filename", Json.str fn),
           ("extracted_chars", Json.int n), ("_folder", Json.str folder),
           ("primary_category", Json.str "Unknown")] := rfl
  rw [load_all_append]
  simp [load_all, hpr]

/-! ## Statistics over loaded records (summarize.py main) -/

/-- Primary-category distribution of summarize.py lines 69-72: the count under
key `c` is the number of loaded records whose
`r.get("primary_category", "Unknown")` equals `c`. -/
def primaryCount (rs : List Record) (c : Json) : Nat :=
  (rs.filter (fun r => getD r "primary_category" (Json.str "Unknown") == c)).length

/-- One crosstab cell of summarize.py lines 181-185: records counted under a
(category, score) pair, keyed by `r.get("primary_category", "?")` and
`r.get("relevance_score", "?")`. -/
def crossCount (rs : List Record) (cat score : Json) : Nat :=
  (rs.filter (fun r =>
    getD r "primary_category" (Json.str "?") == cat &&
    getD r "relevance_score" (Json.str "?") == score)).length

/-- The distinct score keys of one crosstab row — the keys of the Counter
`cross[cat]`. -/
def crossRowKeys (rs : List Record) (cat : Json) : List Json :=
  ((rs.filter (fun r => getD r "primary_category" (Json.str "?") == cat)).map
    (fun r => getD r "relevance_score" (Json.str "?"))).dedup

/-- The row total printed by summarize.py line 193: `sum(row.values())` over
the row's Counter. -/
def crossRowTotal (rs : List Record) (cat : Json) : Nat :=
  ((crossRowKeys rs cat).map (fun s => crossCount rs cat s)).sum

/-- C8: crosstab consistency — for every category of the fixed display order
A–F, the row total of the category×relevance cross-tabulation equals that
category's count in the primary-category distribution computed from the same
record set. -/
theorem C8_crosstab_consistency :
    ∀ (rs : List Record) (c : String), c ∈ ["A", "B", "C", "D", "E", "F"] →
      crossRowTotal rs (Json.str c) = primaryCount rs (Json.str c) := by
  intro rs c hc
  have key : ∀ cstr : String, cstr ≠ "?" → cstr ≠ "Unknown" →
      crossRowTotal rs (Json.str cstr) = primaryCount rs (Json.str cstr) := by
    intro cstr h1 h2
    have hfun : ∀ r : Record,
        (getD r "primary_category" (Json.str "?") == Json.str cstr) =
        (getD r "primary_category" (Json.str "Unknown") == Json.str cstr) := by
      intro r
      unfold getD
      cases List.lookup "primary_category" r with
      | some v => rfl
      | none =>
          have e1 : (Json.str "?" == Json.str cstr) = false :=
            beq_eq_false_iff_ne.mpr (fun hh => h1 (Json.str.inj hh).symm)
          have e2 : (Json.str "Unknown" == Json.str cstr) = false :=
            beq_eq_false_iff_ne.mpr (fun hh => h2 (Json.str.inj hh).symm)
          simp only [e1, e2]
    set q : Record → Bool :=
      fun r => getD r "primary_category" (Json.str "?") == Json.str cstr with hq
    set f : Record → Json :=
      fun r => getD r "relevance_score" (Json.str "?") with hf
    have hp : primaryCount rs (Json.str cstr) = (rs.filter q).length := by
      unfold primaryCount
      congr 1
      exact List.filter_congr (fun r _ => (hfun r).symm)
    have hcell : ∀ s, crossCount rs (Json.str cstr) s = ((rs.filter q).map f).count s := by
      intro s
      unfold crossCount
      rw [List.count_eq_countP, List.countP_map, List.countP_eq_length_filter,
        List.filter_filter]
      congr 1
      refine List.filter_congr (fun r _ => ?_)
      simp only [hq, hf, Function.comp_apply, Bool.and_comm]
    have hrow : crossRowTotal rs (Json.str cstr) = ((rs.filter q).map f).length := by
      unfold crossRowTotal crossRowKeys
      have : (((rs.filter q).map f).dedup.map
            (fun s => crossCount rs (Json.str cstr) s)) =
          (((rs.filter q).map f).dedup.map
            (fun s => ((rs.filter q).map f).count s)) :=
        List.map_congr_left (fun s _ => hcell s)
      rw [this, List.sum_map_count_dedup_eq_length]
    rw [hrow, List.length_map, hp]
  fin_cases hc <;> exact key _ (by decide) (by decide)

theorem C8_crosstab_consistency_witness :
    ("A" : String) ∈ (["A", "B", "C", "D", "E", "F"] : List String) ∧
      crossRowTotal
          [[("primary_category", Json.str "A"), ("relevance_score", Json.int 5)],
           [("primary_category", Json.str "A"), ("relevance_score", Json.int 3)],
           [("primary_category", Json.str "B"), ("relevance_score", Json.int 5)],
           [("primary_category", Json.str "A"), ("relevance_score", Json.int 5)]]
          (Json.str "A") =
        primaryCount
          [[("primary_category", Json.str "A"), ("relevance_score", Json.int 5)],
           [("primary_category", Json.str "A"), ("relevance_score", Json.int 3)],
           [("primary_category", Json.str "B"), ("relevance_score", Json.int 5)],
           [("primary_category", Json.str "A"), ("relevance_score", Json.int 5)]]
          (Json.str "A") :=
  ⟨by decide,
   C8_crosstab_consistency
     [[("primary_category", Json.str "A"), ("relevance_score", Json.int 5)],
      [("primary_category", Json.str "A"), ("relevance_score", Json.int 3)],
      [("primary_category", Json.str "B"), ("relevance_score", Json.int 5)],
      [("primary_category", Json.str "A"), ("relevance_score", Json.int 5)]]
     "A" (by decide)⟩

/-! ## Structured extraction client and batch orchestrator (analyze.py) -/

namespace Analyze

/-- analyze.py line 37. -/
def MAX_RETRIES : Nat := 3

/-- analyze.py line 38 (seconds). -/
def RETRY_DELAY : Nat := 5

/-- analyze.py line 31. -/
def MODEL : String := "google/gemini-2.5-flash"

/-- One HTTP exchange as call_llm's loop body observes it: the transport
raises (requests.exceptions.RequestException), or the response is rate-limited
(status 429), or an error status (`raise_for_status` raises), or a success
whose body is not JSON (`resp.json()` raises), or a success with JSON body
`data`. -/
inductive HttpResp where
  | transportError
  | rateLimited
  | httpFail
  | okBadJson
  | okBody (data : Json)
  deriving Repr

/-- Python `x[k]` with a string key: dict lookup (KeyError when the key is
absent); any non-dict raises TypeError. -/
def pyIndexStr (j : Json) (k : String) : Except PyErr Json :=
  match j with
  | .obj fields =>
      match fields.lookup k with
      | some v => .ok v
      | none => .error .keyError
  | _ => .error .typeError

/-- Python `x[i]` with int index 0: list indexing (IndexError when empty), a
dict raises KeyError (its keys are strings), a string yields a character,
anything else raises TypeError. -/
def pyIndexNat (j : Json) (i : Nat) : Except PyErr Json :=
  match j with
  | .arr xs =>
      match xs.get? i with
      | some v => .ok v
      | none => .error .indexError
  | .obj _ => .error .keyError
  | .str s =>
      match s.data.get? i with
      | some c => .ok (Json.str (String.mk [c]))
      | none => .error .indexError
  | _ => .error .typeError

/-- `data["choices"][0]["message"]["content"]` (analyze.py line 185). -/
def extractContent (data : Json) : Except PyErr Json := do
  let c ← pyIndexStr data "choices"
  let c0 ← pyIndexNat c 0
  let m ← pyIndexStr c0 "message"
  pyIndexStr m "content"

/-- Python `s.startswith(p)`. -/
def pyStartsWith (s p : String) : Bool := s.data.take p.data.length == p.data

/-- Python `s.endswith(p)`. -/
def pyEndsWith (s p : String) : Bool := s.data.reverse.take p.data.length == p.data.reverse

/-- Code-fence stripping of analyze.py lines 187-192: strip, remove a leading
fence line (or the first three characters if the fence has no newline), remove
a trailing fence, strip again. -/
def strip_fences (content0 : String) : String :=
  let content := pyStrip content0
  let content :=
    if pyStartsWith content "```" then
      if content.data.contains '\n' then
        String.mk ((content.data.dropWhile (fun c => c != '\n')).tail)
      else String.mk (content.data.drop 3)
    else content
  let content :=
    if pyEndsWith content "```" then String.mk (content.data.take (content.data.length - 3))
    else content
  pyStrip content

/-- The `_meta` block built on analyze.py lines 197-203 from the response's
`usage` value; `usage.get(...)` raises AttributeError when `usage` is not a
dict. -/
def buildMeta (usage : Json) (now : String) : Except PyErr Json :=
  match usage with
  | .obj ufields =>
      .ok (Json.obj [("input_tokens", getD ufields "prompt_tokens" (Json.int 0)),
                     ("output_tokens", getD ufields "completion_tokens" (Json.int 0)),
                     ("model", Json.str MODEL),
                     ("analyzed_at", Json.str now)])
  | _ => .error .attributeError

/-- The outcome of one call_llm invocation: the returned JSON dict, the sleeps
performed (seconds, in order) and the number of HTTP requests issued. -/
structure CallResult where
  result : Json
  waits : List Nat
  requests : Nat
  deriving DecidableEq, Repr

/-- Count one more issued HTTP request. -/
def addRequest : Except PyErr CallResult → Except PyErr CallResult
  | .ok r => .ok { r with requests := r.requests + 1 }
  | .error e => .error e

/-- Record one sleep before the rest of the loop. -/
def addWait (w : Nat) : Except PyErr CallResult → Except PyErr CallResult
  | .ok r => .ok { r with waits := w :: r.waits }
  | .error e => .error e

/-- The retry loop of `call_llm` (analyze.py lines 172-220), structurally
recursive on the remaining attempt budget; `attempt` is the Python loop index.
`http i` is the outcome of the i-th `requests.post`; `parse` is the
`json.loads` collaborator (`none` = JSONDecodeError); `now` is the
`time.strftime` collaborator.  A 429 sleeps `RETRY_DELAY * (attempt + 2)`
unconditionally; the three caught exception classes (JSONDecodeError,
RequestException, KeyError/IndexError) sleep the fixed `RETRY_DELAY` only
when another attempt remains.  An uncaught exception — TypeError or
AttributeError on a malformed success payload — escapes as `.error`. -/
def call_llm_go (http : Nat → HttpResp) (parse : String → Option Json)
    (now : String) (filename : String) : Nat → Nat → Except PyErr CallResult
  | _, 0 =>
      .ok ⟨Json.obj [("error", Json.str "Failed after 3 attempts"),
                     ("filename", Json.str filename)], [], 0⟩
  | attempt, remaining + 1 =>
      let next := call_llm_go http parse now filename (attempt + 1) remaining
      addRequest <|
        match http attempt with
        | .rateLimited => addWait (RETRY_DELAY * (attempt + 2)) next
        | .transportError =>
            if attempt < MAX_RETRIES - 1 then addWait RETRY_DELAY next else next
        | .httpFail =>
            if attempt < MAX_RETRIES - 1 then addWait RETRY_DELAY next else next
        | .okBadJson =>
            if attempt < MAX_RETRIES - 1 then addWait RETRY_DELAY next else next
        | .okBody data =>
            match extractContent data with
            | .error .keyError =>
                if attempt < MAX_RETRIES - 1 then addWait RETRY_DELAY next else next
            | .error .indexError =>
                if attempt < MAX_RETRIES - 1 then addWait RETRY_DELAY next else next
            | .error e => .error e
            | .ok (Json.str content) =>
                match parse (strip_fences content) with
                | none =>
                    if attempt < MAX_RETRIES - 1 then addWait RETRY_DELAY next else next
                | some (Json.obj rfields) =>
                    match data with
                    | .obj dfields =>
                        match buildMeta (getD dfields "usage" (Json.obj [])) now with
                        | .ok m => .ok ⟨Json.obj (setField rfields "_meta" m), [], 0⟩
                        | .error e => .error e
                    | _ => .error .typeError
                | some _ => .error .typeError
            | .ok _ => .error .attributeError

/-- `call_llm` (analyze.py lines 151-220): run the retry loop from attempt 0
with the full budget.  `text` only feeds the request payload, which the `http`
collaborator already abstracts. -/
def call_llm (http : Nat → HttpResp) (parse : String → Option Json)
    (now : String) (text filename : String) : Except PyErr CallResult :=
  call_llm_go http parse now filename 0 MAX_RETRIES

/-- Python `"error" in result` on the dict that call_llm returned. -/
def jsonHasKey (j : Json) (k : String) : Bool :=
  match j with
  | .obj fields => hasKey fields k
  | _ => false

/-- The state of one Zotero storage folder as the orchestrator sees it: its
name, whether analysis.json already exists, the PDF filenames it contains, and
the text that `extract_text_from_pdf` (the external collaborator wrapping
fitz, analyze.py lines 134-148) returns for its first PDF. -/
structure ItemState where
  folder : String
  hasResult : Bool
  pdfs : List String
  extractedText : String
  deriving DecidableEq, Repr

/-- The per-item status reported by process_one's return dict. -/
inductive Status where
  | skipped
  | no_pdf
  | too_short
  | success
  | error
  deriving DecidableEq, Repr

/-- What one process_one call did: the reported status, the persisted file
content (if it wrote one), and the extraction / HTTP-request / sleep effects
it performed. -/
structure ProcResult where
  status : Status
  written : Option Json
  extractions : Nat
  requests : Nat
  waits : List Nat
  deriving DecidableEq, Repr

/-- `process_one` (analyze.py lines 223-260). -/
def process_one (http : Nat → HttpResp) (parse : String → Option Json)
    (now : String) (it : ItemState) : Except PyErr ProcResult :=
  if it.hasResult then .ok ⟨.skipped, none, 0, 0, []⟩
  else
    match it.pdfs with
    | [] => .ok ⟨.no_pdf, none, 0, 0, []⟩
    | pdf :: _ =>
        if it.extractedText.length < 100 then
          .ok ⟨.too_short,
               some (errorRecordJson "Extracted text too short — likely a scanned PDF"
                 pdf (it.extractedText.length : Int)),
               1, 0, []⟩
        else
          match call_llm http parse now it.extractedText pdf with
          | .error e => .error e
          | .ok r =>
              .ok ⟨if jsonHasKey r.result "error" then .error else .success,
                   some r.result, 1, r.requests, r.waits⟩

/-- `pending_folders` (analyze.py lines 315-319): folders holding a PDF and no
persisted result, in scan order. -/
def pendingOf (items : List ItemState) : List ItemState :=
  items.filter (fun it => !it.pdfs.isEmpty && !it.hasResult)

/-- `has_pdf` (analyze.py line 289). -/
def countPdf (items : List ItemState) : Nat :=
  (items.filter (fun it => !it.pdfs.isEmpty)).length

/-- `already_done` (analyze.py line 290). -/
def countDone (items : List ItemState) : Nat :=
  (items.filter (fun it => it.hasResult)).length

/-- Python list slicing `l[:n]`, including the negative-bound case
`l[:n] = l[0:max(len(l)+n, 0)]`. -/
def pySlice {α : Type} (l : List α) (n : Int) : List α :=
  if 0 ≤ n then l.take n.toNat else l.take ((l.length : Int) + n).toNat

/-- The per-item loop of main (analyze.py lines 321-347): per-item statuses in
order, total HTTP requests issued, and the folders whose result slot was
written. -/
def runLoop (http : Nat → HttpResp) (parse : String → Option Json) (now : String) :
    List ItemState → Except PyErr (List (String × Status) × Nat × List String)
  | [] => .ok ([], 0, [])
  | it :: rest => do
      let r ← process_one http parse now it
      let (sts, reqs, written) ← runLoop http parse now rest
      .ok ((it.folder, r.status) :: sts, r.requests + reqs,
           (if r.written.isSome then [it.folder] else []) ++ written)

/-- Mark the folders whose analysis.json was written during a run. -/
def applyWrites (items : List ItemState) (written : List String) : List ItemState :=
  items.map (fun it =>
    if written.contains it.folder then { it with hasResult := true } else it)

/-- The observable outcome of one orchestrator run. -/
structure RunOut where
  statuses : List (String × Status)
  requests : Nat
  finalItems : List ItemState
  deriving DecidableEq, Repr

/-- `main` (analyze.py lines 265-357) under the default run-control arguments
(credential present, no --dry-run, no --folder restriction): compute
`to_process = has_pdf - already_done`, return immediately when it is 0, else
process `pending_folders[:limit]` where `limit` is the positive --limit
argument or `to_process` itself. -/
def runMain (http : Nat → HttpResp) (parse : String → Option Json) (now : String)
    (items : List ItemState) (argLimit : Nat) : Except PyErr RunOut :=
  if (countPdf items : Int) - (countDone items : Int) = 0 then .ok ⟨[], 0, items⟩
  else
    match runLoop http parse now
        (pySlice (pendingOf items)
          (if 0 < argLimit then (argLimit : Int)
           else (countPdf items : Int) - (countDone items : Int))) with
    | .error e => .error e
    | .ok (sts, reqs, written) => .ok ⟨sts, reqs, applyWrites items written⟩

/-- process_one on a pending item (a PDF present, no persisted result) always
persists a record when it returns normally. -/
theorem process_one_pending_writes
    (http : Nat → HttpResp) (parse : String → Option Json) (now : String)
    (it : ItemState) (r : ProcResult)
    (h1 : it.hasResult = false) (h2 : it.pdfs ≠ [])
    (hp : process_one http parse now it = .ok r) : r.written.isSome = true := by
  rcases hpd : it.pdfs with _ | ⟨pdf, rest⟩
  · exact absurd hpd h2
  · by_cases hlen : it.extractedText.length < 100
    · simp only [process_one, h1, Bool.false_eq_true, if_false, hpd, hlen, if_true,
        Except.ok.injEq] at hp
      rw [← hp]
      rfl
    · cases hcall : call_llm http parse now it.extractedText pdf with
      | error e =>
          simp [process_one, h1, hpd, hlen, hcall] at hp
      | ok cr =>
          simp only [process_one, h1, Bool.false_eq_true, if_false, hpd, hlen,
            if_false, hcall, Except.ok.injEq] at hp
          rw [← hp]
          rfl

/-- Over a list of pending items, the main loop writes exactly the folders it
visits, in order. -/
theorem runLoop_writes (http : Nat → HttpResp) (parse : String → Option Json)
    (now : String) :
    ∀ (l : List ItemState) (sts : List (String × Status)) (reqs : Nat) (w : List String),
      (∀ it ∈ l, it.hasResult = false ∧ it.pdfs ≠ []) →
      runLoop http parse now l = .ok (sts, reqs, w) →
      w = l.map ItemState.folder := by
  intro l
  induction l with
  | nil =>
      intro sts reqs w _ h
      simp only [runLoop, Except.ok.injEq, Prod.mk.injEq] at h
      obtain ⟨-, -, h3⟩ := h
      first
      | exact h3
      | exact h3.symm
  | cons it rest ih =>
      intro sts reqs w hpend hrun
      cases hproc : process_one http parse now it with
      | error e =>
          rw [show runLoop http parse now (it :: rest) =
              (process_one http parse now it >>= fun r =>
                runLoop http parse now rest >>= fun t =>
                  .ok ((it.folder, r.status) :: t.1, r.requests + t.2.1,
                    (if r.written.isSome then [it.folder] else []) ++ t.2.2)) from rfl,
            hproc] at hrun
          cases hrun
      | ok r =>
          cases hrest : runLoop http parse now rest with
          | error e =>
              rw [show runLoop http parse now (it :: rest) =
                  (process_one http parse now it >>= fun r =>
                    runLoop http parse now rest >>= fun t =>
                      .ok ((it.folder, r.status) :: t.1, r.requests + t.2.1,
                        (if r.written.isSome then [it.folder] else []) ++ t.2.2)) from rfl,
                hproc, hrest] at hrun
              cases hrun
          | ok trip =>
              obtain ⟨s2, q2, w2⟩ := trip
              have hhead := hpend it (List.mem_cons_self it rest)
              have hsome := process_one_pending_writes http parse now it r
                hhead.1 hhead.2 hproc
              have hw2 : w2 = rest.map ItemState.folder :=
                ih s2 q2 w2 (fun x hx => hpend x (List.mem_cons_of_mem it hx)) hrest
              rw [show runLoop http parse now (it :: rest) =
                  (process_one http parse now it >>= fun r =>
                    runLoop http parse now rest >>= fun t =>
                      .ok ((it.folder, r.status) :: t.1, r.requests + t.2.1,
                        (if r.written.isSome then [it.folder] else []) ++ t.2.2)) from rfl,
                hproc, hrest] at hrun
              have hrun' := Except.ok.inj hrun
              have hw' : (if r.written.isSome then [it.folder] else []) ++ w2 = w :=
                congrArg (fun p => p.2.2) hrun'
              rw [← hw', hsome, hw2]
              simp

/-- `applyWrites` unfolded over a cons cell. -/
theorem applyWrites_cons (it : ItemState) (rest : List ItemState) (w : List String) :
    applyWrites (it :: rest) w =
      (if w.contains it.folder then { it with hasResult := true } else it) ::
        applyWrites rest w := rfl

/-- Membership of a folder in a singleton list, positive case. -/
theorem contains_single_true {f g : String} (h : g = f) :
    ([f] : List String).contains g = true := by
  subst h
  simp

/-- Membership of a folder in a singleton list, negative case. -/
theorem contains_single_false {f g : String} (h : g ≠ f) :
    ([f] : List String).contains g = false := by
  simp [List.contains_cons]
  exact h

/-- `countDone` unfolded over a cons cell. -/
theorem countDone_cons (it : ItemState) (rest : List ItemState) :
    countDone (it :: rest) = countDone rest + (if it.hasResult then 1 else 0) := by
  unfold countDone
  rw [List.filter_cons]
  by_cases h : it.hasResult <;> simp [h]

/-- `pendingOf` unfolded over a cons cell. -/
theorem pendingOf_cons (it : ItemState) (rest : List ItemState) :
    pendingOf (it :: rest) =
      if (!it.pdfs.isEmpty && !it.hasResult) then it :: pendingOf rest
      else pendingOf rest := by
  unfold pendingOf
  rw [List.filter_cons]

/-- Marking no folders changes nothing. -/
theorem applyWrites_nil (items : List ItemState) : applyWrites items [] = items := by
  simp [applyWrites]

/-- Marking never changes folder names. -/
theorem applyWrites_map_folder (items : List ItemState) (w : List String) :
    (applyWrites items w).map ItemState.folder = items.map ItemState.folder := by
  unfold applyWrites
  rw [List.map_map]
  apply List.map_congr_left
  intro it _
  simp only [Function.comp_apply]
  split <;> rfl

/-- Marking never changes which items have a PDF. -/
theorem applyWrites_countPdf (items : List ItemState) (w : List String) :
    countPdf (applyWrites items w) = countPdf items := by
  unfold countPdf applyWrites
  rw [← List.countP_eq_length_filter, ← List.countP_eq_length_filter, List.countP_map]
  apply List.countP_congr
  intro it _
  simp only [Function.comp_apply]
  split <;> exact Iff.rfl

/-- An unmarked item survives `applyWrites` unchanged. -/
theorem applyWrites_mem_of_not_contains {it : ItemState} {items : List ItemState}
    (w : List String) (hmem : it ∈ items) (h : w.contains it.folder = false) :
    it ∈ applyWrites items w := by
  unfold applyWrites
  have himg : (fun x : ItemState =>
      if w.contains x.folder then { x with hasResult := true } else x) it = it := by
    simp only [h]
    rfl
  rw [← himg]
  exact List.mem_map_of_mem _ hmem

/-- Marking a folder that is not present changes nothing. -/
theorem applyWrites_single_absent (items : List ItemState) (f : String)
    (h : f ∉ items.map ItemState.folder) : applyWrites items [f] = items := by
  induction items with
  | nil => rfl
  | cons it rest ih =>
      simp only [List.map_cons, List.mem_cons, not_or] at h
      obtain ⟨h1, h2⟩ := h
      rw [applyWrites_cons, ih h2,
        if_neg (by simp; exact fun hh => h1 hh.symm)]

/-- Marking one pending folder: one more done item, one fewer pending item. -/
theorem applyWrites_single_counts (items : List ItemState) (f : String)
    (hnd : (items.map ItemState.folder).Nodup)
    (hex : ∃ it ∈ items, it.folder = f ∧ it.hasResult = false ∧ it.pdfs ≠ []) :
    countDone (applyWrites items [f]) = countDone items + 1 ∧
    (pendingOf (applyWrites items [f])).length + 1 = (pendingOf items).length := by
  induction items with
  | nil => rcases hex with ⟨it, hmem, _⟩; cases hmem
  | cons it rest ih =>
      simp only [List.map_cons, List.nodup_cons] at hnd
      obtain ⟨hni, hnd'⟩ := hnd
      rcases hex with ⟨w, hw, hwf, hwres, hwpdf⟩
      rcases List.mem_cons.mp hw with heq | hmem
      · subst heq
        have hrest : applyWrites rest [f] = rest :=
          applyWrites_single_absent rest f (by rw [← hwf]; exact hni)
        have hc : ([f] : List String).contains w.folder = true :=
          contains_single_true hwf
        have hpdfb : w.pdfs.isEmpty = false := by
          cases hh : w.pdfs with
          | nil => exact absurd hh hwpdf
          | cons a b => rfl
        rw [applyWrites_cons, if_pos hc, hrest]
        constructor
        · rw [countDone_cons, countDone_cons, hwres]
          rfl
        · rw [pendingOf_cons, pendingOf_cons]
          have hcond1 : (!({ w with hasResult := true } : ItemState).pdfs.isEmpty &&
              !({ w with hasResult := true } : ItemState).hasResult) = false := by
            simp
          have hcond2 : (!w.pdfs.isEmpty && !w.hasResult) = true := by
            rw [hwres, hpdfb]
            rfl
          rw [if_neg (by simp [hcond1]), if_pos hcond2]
          simp
      · have hfmem : f ∈ rest.map ItemState.folder := by
          rw [← hwf]
          exact List.mem_map_of_mem ItemState.folder hmem
        have hne : it.folder ≠ f := fun hh => hni (hh ▸ hfmem)
        have hnomark : ([f] : List String).contains it.folder = false :=
          contains_single_false hne
        obtain ⟨ih1, ih2⟩ := ih hnd' ⟨w, hmem, hwf, hwres, hwpdf⟩
        rw [applyWrites_cons, if_neg (by simp; exact hne)]
        constructor
        · rw [countDone_cons, countDone_cons, ih1]
          omega
        · rw [pendingOf_cons, pendingOf_cons]
          by_cases hd : (!it.pdfs.isEmpty && !it.hasResult) = true
          · rw [if_pos hd, if_pos hd]
            simp only [List.length_cons]
            omega
          · rw [if_neg hd, if_neg hd]
            exact ih2

/-- Marking distributes over the head of the folder list. -/
theorem applyWrites_cons_comm (items : List ItemState) (f : String) (w : List String) :
    applyWrites items (f :: w) = applyWrites (applyWrites items [f]) w := by
  unfold applyWrites
  rw [List.map_map]
  apply List.map_congr_left
  intro it _
  simp only [Function.comp_apply, List.contains_cons]
  by_cases h1 : it.folder == f <;> by_cases h2 : w.contains it.folder <;>
    simp [h1, h2]

/-- Marking the folders of distinct pending items shifts the done and pending
counts by exactly the number of marks. -/
theorem applyWrites_counts (w : List String) (items : List ItemState)
    (hnd : (items.map ItemState.folder).Nodup) (hwnd : w.Nodup)
    (hex : ∀ f ∈ w, ∃ it ∈ items, it.folder = f ∧ it.hasResult = false ∧ it.pdfs ≠ []) :
    countDone (applyWrites items w) = countDone items + w.length ∧
    (pendingOf (applyWrites items w)).length + w.length = (pendingOf items).length := by
  induction w generalizing items with
  | nil => simp [applyWrites_nil]
  | cons f w' ih =>
      rw [applyWrites_cons_comm]
      obtain ⟨h1, h2⟩ := applyWrites_single_counts items f hnd
        (hex f (List.mem_cons_self f w'))
      have hnd2 : ((applyWrites items [f]).map ItemState.folder).Nodup := by
        rw [applyWrites_map_folder]; exact hnd
      have hwnd' : w'.Nodup := (List.nodup_cons.mp hwnd).2
      have hfni : f ∉ w' := (List.nodup_cons.mp hwnd).1
      have hex' : ∀ g ∈ w', ∃ it ∈ applyWrites items [f],
          it.folder = g ∧ it.hasResult = false ∧ it.pdfs ≠ [] := by
        intro g hg
        obtain ⟨it, hmem, hitf, hres, hpdf⟩ := hex g (List.mem_cons_of_mem _ hg)
        refine ⟨it, ?_, hitf, hres, hpdf⟩
        have hgne : g ≠ f := fun hh => hfni (hh ▸ hg)
        have hnomark : ([f] : List String).contains it.folder = false := by
          rw [hitf]
          exact contains_single_false hgne
        exact applyWrites_mem_of_not_contains [f] hmem hnomark
      obtain ⟨h3, h4⟩ := ih (applyWrites items [f]) hnd2 hwnd' hex'
      refine ⟨?_, ?_⟩
      · rw [h3, h1]
        simp only [List.length_cons]
        omega
      · rw [← h2]
        simp only [List.length_cons]
        omega

/-- Length of a Python slice. -/
theorem pySlice_length {α : Type} (l : List α) (n : Int) :
    (pySlice l n).length =
      if 0 ≤ n then min n.toNat l.length
      else min ((l.length : Int) + n).toNat l.length := by
  unfold pySlice
  split <;> simp [List.length_take]

/-- Slicing the empty list. -/
theorem pySlice_nil {α : Type} (n : Int) : pySlice ([] : List α) n = [] := by
  unfold pySlice
  split <;> simp

/-- A slice is a sublist. -/
theorem pySlice_sublist {α : Type} (l : List α) (n : Int) : (pySlice l n).Sublist l := by
  unfold pySlice
  split <;> exact List.take_sublist _ _

/-- A response body of the shape the completion service returns on success. -/
def sampleBody : Json :=
  Json.obj [("choices",
    Json.arr [Json.obj [("message", Json.obj [("content", Json.str "ok")])]])]

/-- A service that is rate-limited on its first two attempts, then succeeds. -/
def sampleHttp : Nat → HttpResp :=
  fun n => if n < 2 then .rateLimited else .okBody sampleBody

/-- A json.loads collaborator that accepts exactly the sample content. -/
def sampleParse : String → Option Json :=
  fun s => if s = "ok" then some (Json.obj []) else none

end Analyze

open Analyze

/-- C2 counterexample: on a one-item corpus the first run processes the item
(here via the too-short short-circuit, which persists a result), and a second
run over the unchanged corpus reports no per-item statuses at all — done items
are filtered out of pending_folders before process_one runs, and the run
returns before the loop — so the item does not report "skipped" on the second
run, contrary to the claim. -/
theorem C2_counterexample :
    runMain sampleHttp sampleParse "T" [⟨"f1", false, ["a.pdf"], "x"⟩] 0 =
      .ok ⟨[("f1", Status.too_short)], 0, [⟨"f1", true, ["a.pdf"], "x"⟩]⟩ ∧
    ¬ ∃ out2 : RunOut,
        runMain sampleHttp sampleParse "T" [⟨"f1", true, ["a.pdf"], "x"⟩] 0 =
          .ok out2 ∧
        ("f1", Status.skipped) ∈ out2.statuses := by
  constructor
  · decide
  · rintro ⟨out2, h1, h2⟩
    have h0 : runMain sampleHttp sampleParse "T" [⟨"f1", true, ["a.pdf"], "x"⟩] 0 =
        .ok ⟨[], 0, [⟨"f1", true, ["a.pdf"], "x"⟩]⟩ := by decide
    rw [h0] at h1
    have h3 := (Except.ok.inj h1).symm
    subst h3
    simp at h2

/-- C2 amended: processing an item whose persisted result already exists
performs no text extraction, no external invocation and no write, and reports
"skipped"; a second orchestrator run over an unchanged corpus (with distinct
folder names, as os.listdir yields) performs zero additional external
invocations — but it reports no per-item statuses at all, because done items
are filtered out of the pending list before per-item processing and the run
returns early when nothing is pending; items do not individually report
"skipped". -/
theorem C2_idempotence :
    (∀ (http : Nat → HttpResp) (parse : String → Option Json) (now : String)
       (it : ItemState), it.hasResult = true →
      process_one http parse now it = .ok ⟨.skipped, none, 0, 0, []⟩) ∧
    (∀ (http http2 : Nat → HttpResp) (parse parse2 : String → Option Json)
       (now now2 : String) (items : List ItemState) (out1 : RunOut),
      (items.map ItemState.folder).Nodup →
      runMain http parse now items 0 = .ok out1 →
      runMain http2 parse2 now2 out1.finalItems 0 = .ok ⟨[], 0, out1.finalItems⟩) := by
  constructor
  · intro http parse now it h
    simp [process_one, h]
  · intro http http2 parse parse2 now now2 items out1 hnd hrun
    by_cases ht : (countPdf items : Int) - (countDone items : Int) = 0
    · rw [runMain, if_pos ht] at hrun
      obtain rfl : out1 = ⟨[], 0, items⟩ := (Except.ok.inj hrun).symm
      dsimp only
      rw [runMain, if_pos ht]
    · rw [runMain, if_neg ht,
        if_neg (show ¬((0 : Nat) < 0) by omega)] at hrun
      cases hloop : runLoop http parse now (pySlice (pendingOf items)
          ((countPdf items : Int) - (countDone items : Int))) with
      | error e => rw [hloop] at hrun; cases hrun
      | ok trip =>
          obtain ⟨sts, reqs, written⟩ := trip
          rw [hloop] at hrun
          obtain rfl : out1 = ⟨sts, reqs, applyWrites items written⟩ :=
            (Except.ok.inj hrun).symm
          dsimp only
          have hpendmem : ∀ x ∈ pySlice (pendingOf items)
              ((countPdf items : Int) - (countDone items : Int)),
              x.hasResult = false ∧ x.pdfs ≠ [] := by
            intro x hx
            have hx' : x ∈ pendingOf items := (pySlice_sublist _ _).subset hx
            have hx'' := List.mem_filter.mp hx'
            have hx2 := hx''.2
            simp only [Bool.and_eq_true] at hx2
            obtain ⟨hc1, hc2⟩ := hx2
            refine ⟨by simpa using hc2, ?_⟩
            cases hh : x.pdfs with
            | nil => rw [hh] at hc1; simp at hc1
            | cons a b => exact fun hcon => by cases hcon
          have hw : written = (pySlice (pendingOf items)
              ((countPdf items : Int) - (countDone items : Int))).map ItemState.folder :=
            runLoop_writes http parse now _ sts reqs written hpendmem hloop
          have hsub : List.Sublist (pySlice (pendingOf items)
              ((countPdf items : Int) - (countDone items : Int))) items :=
            (pySlice_sublist _ _).trans (List.filter_sublist items)
          have hmapsub : List.Sublist written (items.map ItemState.folder) := by
            rw [hw]
            exact hsub.map ItemState.folder
          have hwnd : written.Nodup := hnd.sublist hmapsub
          have hex : ∀ f ∈ written, ∃ it ∈ items,
              it.folder = f ∧ it.hasResult = false ∧ it.pdfs ≠ [] := by
            intro f hf
            rw [hw] at hf
            obtain ⟨x, hxmem, rfl⟩ := List.mem_map.mp hf
            obtain ⟨hres, hpdf⟩ := hpendmem x hxmem
            exact ⟨x, hsub.subset hxmem, rfl, hres, hpdf⟩
          obtain ⟨hcd, hpl⟩ := applyWrites_counts written items hnd hwnd hex
          have hcp : countPdf (applyWrites items written) = countPdf items :=
            applyWrites_countPdf items written
          have hk : written.length = (pySlice (pendingOf items)
              ((countPdf items : Int) - (countDone items : Int))).length := by
            rw [hw, List.length_map]
          by_cases ht2 : (countPdf (applyWrites items written) : Int) -
              (countDone (applyWrites items written) : Int) = 0
          · rw [runMain, if_pos ht2]
          · have htw : (countPdf (applyWrites items written) : Int) -
                (countDone (applyWrites items written) : Int) =
                ((countPdf items : Int) - (countDone items : Int)) - written.length := by
              rw [hcp, hcd]
              push_cast
              ring
            have hP2 : pySlice (pendingOf (applyWrites items written))
                ((countPdf (applyWrites items written) : Int) -
                  (countDone (applyWrites items written) : Int)) = [] := by
              rcases le_or_lt 0 ((countPdf items : Int) - (countDone items : Int)) with
                hpos | hneg
              · have hkk : written.length =
                    min ((countPdf items : Int) - (countDone items : Int)).toNat
                      (pendingOf items).length := by
                  rw [hk, pySlice_length, if_pos hpos]
                have hL2 : (pendingOf (applyWrites items written)).length = 0 := by
                  rw [htw] at ht2
                  omega
                rw [List.eq_nil_of_length_eq_zero hL2, pySlice_nil]
              · have hkk : written.length =
                    min (((pendingOf items).length : Int) +
                        ((countPdf items : Int) - (countDone items : Int))).toNat
                      (pendingOf items).length := by
                  rw [hk, pySlice_length, if_neg (not_le.mpr hneg)]
                have ht2neg : (countPdf (applyWrites items written) : Int) -
                    (countDone (applyWrites items written) : Int) < 0 := by
                  rw [htw]
                  omega
                unfold pySlice
                rw [if_neg (not_le.mpr ht2neg)]
                have h0 : (((pendingOf (applyWrites items written)).length : Int) +
                    ((countPdf (applyWrites items written) : Int) -
                      (countDone (applyWrites items written) : Int))).toNat = 0 := by
                  rw [htw]
                  omega
                rw [h0]
                simp
            rw [runMain, if_neg ht2, if_neg (show ¬((0 : Nat) < 0) by omega), hP2]
            show Except.ok (⟨[], 0, applyWrites (applyWrites items written) []⟩ : RunOut) =
              .ok ⟨[], 0, applyWrites items written⟩
            rw [applyWrites_nil]

/-- C5: short-circuit guarantee — for an unprocessed item whose extracted text
is shorter than the threshold 100, process_one persists an ErrorRecord holding
the error reason, the source filename and the extracted-character count,
reports "too_short", and issues zero external-service requests. -/
theorem C5_short_circuit :
    ∀ (http : Nat → HttpResp) (parse : String → Option Json) (now : String)
      (it : ItemState) (pdf : String) (rest : List String),
      it.hasResult = false → it.pdfs = pdf :: rest →
      it.extractedText.length < 100 →
      process_one http parse now it =
        .ok ⟨.too_short,
             some (errorRecordJson "Extracted text too short — likely a scanned PDF"
               pdf (it.extractedText.length : Int)),
             1, 0, []⟩ := by
  intro http parse now it pdf rest h1 h2 h3
  simp [process_one, h1, h2, h3]

theorem C5_short_circuit_witness :
    process_one sampleHttp sampleParse "T" ⟨"f9", false, ["scan.pdf"], "short"⟩ =
      .ok ⟨.too_short,
           some (errorRecordJson "Extracted text too short — likely a scanned PDF"
             "scan.pdf" (("short" : String).length : Int)),
           1, 0, []⟩ :=
  C5_short_circuit sampleHttp sampleParse "T" ⟨"f9", false, ["scan.pdf"], "short"⟩
    "scan.pdf" [] rfl rfl (by decide)

/-- C6: retry/backoff schedule — against a service that is rate-limited on the
first two attempts and succeeds on the third, call_llm returns the parsed
payload (with its `_meta` block) using exactly 3 HTTP requests, and the sleeps
enforced before success are `RETRY_DELAY*(0+2)` then `RETRY_DELAY*(1+2)`,
the 429 backoff formula at attempt indices 0 and 1. -/
theorem C6_retry_backoff :
    ∀ (http : Nat → HttpResp) (parse : String → Option Json)
      (now text fn : String) (dfields : List (String × Json)) (content : String)
      (rfields : List (String × Json)) (m : Json),
      http 0 = .rateLimited → http 1 = .rateLimited →
      http 2 = .okBody (Json.obj dfields) →
      extractContent (Json.obj dfields) = .ok (Json.str content) →
      parse (strip_fences content) = some (Json.obj rfields) →
      buildMeta (getD dfields "usage" (Json.obj [])) now = .ok m →
      call_llm http parse now text fn =
        .ok ⟨Json.obj (setField rfields "_meta" m),
             [RETRY_DELAY * (0 + 2), RETRY_DELAY * (1 + 2)], 3⟩ := by
  intro http parse now text fn dfields content rfields m h0 h1 h2 hec hp hm
  show call_llm_go http parse now fn 0 (0 + 1 + 1 + 1) = _
  rw [call_llm_go, h0]
  dsimp only
  rw [call_llm_go, h1]
  dsimp only
  rw [call_llm_go, h2]
  dsimp only
  rw [hec]
  dsimp only
  rw [hp]
  dsimp only
  rw [hm]
  rfl

theorem C6_retry_backoff_witness :
    call_llm sampleHttp sampleParse "T" "papertext" "a.pdf" =
      .ok ⟨Json.obj (setField [] "_meta"
             (Json.obj [("input_tokens", Json.int 0), ("output_tokens", Json.int 0),
                        ("model", Json.str MODEL), ("analyzed_at", Json.str "T")])),
           [RETRY_DELAY * (0 + 2), RETRY_DELAY * (1 + 2)], 3⟩ :=
  C6_retry_backoff sampleHttp sampleParse "T" "papertext" "a.pdf"
    [("choices", Json.arr [Json.obj [("message", Json.obj [("content", Json.str "ok")])]])]
    "ok" []
    (Json.obj [("input_tokens", Json.int 0), ("output_tokens", Json.int 0),
               ("model", Json.str MODEL), ("analyzed_at", Json.str "T")])
    rfl rfl rfl (by decide) (by decide) (by decide)

/-- C10: for every item that reaches the external-service step, the reported
status is "error" exactly when the persisted dict carries a top-level "error"
key (the dict — whatever the service payload contained — is persisted as
returned), and the terminal retry-exhaustion record always carries the "error"
key, so it is always counted as an error. -/
theorem C10_error_status_iff_error_key :
    (∀ (http : Nat → HttpResp) (parse : String → Option Json) (now : String)
       (it : ItemState) (pdf : String) (rest : List String) (r : CallResult),
      it.hasResult = false → it.pdfs = pdf :: rest →
      ¬ it.extractedText.length < 100 →
      call_llm http parse now it.extractedText pdf = .ok r →
      process_one http parse now it =
        .ok ⟨if jsonHasKey r.result "error" then .error else .success,
             some r.result, 1, r.requests, r.waits⟩) ∧
    (∀ (http : Nat → HttpResp) (parse : String → Option Json) (now fn : String),
      call_llm_go http parse now fn MAX_RETRIES 0 =
        .ok ⟨Json.obj [("error", Json.str "Failed after 3 attempts"),
                       ("filename", Json.str fn)], [], 0⟩ ∧
      jsonHasKey (Json.obj [("error", Json.str "Failed after 3 attempts"),
                            ("filename", Json.str fn)]) "error" = true) := by
  constructor
  · intro http parse now it pdf rest r h1 h2 h3 hcall
    simp [process_one, h1, h2, h3, hcall]
  · intro http parse now fn
    exact ⟨rfl, rfl⟩

theorem C10_error_status_iff_error_key_witness :
    (process_one (fun _ => .transportError) sampleParse "T"
        ⟨"f2", false, ["p.pdf"],
          String.mk (List.replicate 120 'a')⟩ =
      .ok ⟨if jsonHasKey (Json.obj [("error", Json.str "Failed after 3 attempts"),
                                    ("filename", Json.str "p.pdf")]) "error"
           then Status.error else Status.success,
           some (Json.obj [("error", Json.str "Failed after 3 attempts"),
                           ("filename", Json.str "p.pdf")]),
           1, 3, [RETRY_DELAY, RETRY_DELAY]⟩) ∧
    jsonHasKey (Json.obj [("error", Json.str "Failed after 3 attempts"),
                          ("filename", Json.str "p.pdf")]) "error" = true :=
  ⟨C10_error_status_iff_error_key.1 (fun _ => .transportError) sampleParse "T"
     ⟨"f2", false, ["p.pdf"], String.mk (List.replicate 120 'a')⟩
     "p.pdf" [] ⟨Json.obj [("error", Json.str "Failed after 3 attempts"),
                           ("filename", Json.str "p.pdf")],
                 [RETRY_DELAY, RETRY_DELAY], 3⟩
     rfl rfl (by decide) (by decide),
   (C10_error_status_iff_error_key.2 (fun _ => .transportError) sampleParse "T"
     "p.pdf").2⟩

theorem C2_idempotence_witness :
    process_one sampleHttp sampleParse "T" ⟨"f1", true, ["a.pdf"], "x"⟩ =
      .ok ⟨.skipped, none, 0, 0, []⟩ ∧
    runMain sampleHttp sampleParse "T"
        (RunOut.finalItems ⟨[("f1", Status.too_short)], 0,
          [⟨"f1", true, ["a.pdf"], "x"⟩]⟩) 0 =
      .ok ⟨[], 0, RunOut.finalItems ⟨[("f1", Status.too_short)], 0,
          [⟨"f1", true, ["a.pdf"], "x"⟩]⟩⟩ :=
  ⟨C2_idempotence.1 sampleHttp sampleParse "T" ⟨"f1", true, ["a.pdf"], "x"⟩ rfl,
   C2_idempotence.2 sampleHttp sampleHttp sampleParse sampleParse "T" "T"
     [⟨"f1", false, ["a.pdf"], "x"⟩]
     ⟨[("f1", Status.too_short)], 0, [⟨"f1", true, ["a.pdf"], "x"⟩]⟩
     (by decide) (by decide)⟩

theorem C4_score_coercion_witness :
    (∃ r', coerce_relevance [("relevance_score", Json.arr [])] = .ok r') ∧
    coerce_relevance [("relevance_score", Json.str "four")] =
      .ok (setField [("relevance_score", Json.str "four")] "relevance_score" (Json.int 0)) ∧
    coerce_relevance [("x", Json.int 1)] = .ok [("x", Json.int 1)] :=
  ⟨C4_score_coercion.1 [("relevance_score", Json.arr [])],
   C4_score_coercion.2.1 [("relevance_score", Json.str "four")] rfl,
   C4_score_coercion.2.2.1 [("x", Json.int 1)] rfl⟩
